import Mathlib

set_option maxRecDepth 100000

/-!
Verification development for the dexcom-share-ts client.

This file gives a shallow embedding of the authenticated-session subsystem:
the error classifier (`handleErrorCode` in src/dexcom.ts), the TTL session
cache (src/cache.ts), the validation helpers and the retrying transport
(src/util.ts), the session manager (`ensureSession`) and the client facade
(`getGlucoseReadings`).  Asynchronous effects are embedded by explicit state
passing: network traffic is an oracle `Nat → Resp` consumed sequentially, and
every network call and cache mutation is recorded in a trace.
-/

/-- Error reason codes, mirroring `DexcomErrorCode` in src/errors.ts.  The
string payloads of the TS enum are irrelevant to control flow, so the codes
are modelled as a plain enumeration. -/
inductive DexcomErrorCode where
  | ACCOUNT_FAILED_AUTHENTICATION
  | ACCOUNT_MAX_ATTEMPTS
  | SESSION_NOT_FOUND
  | SESSION_INVALID
  | MINUTES_INVALID
  | MAX_COUNT_INVALID
  | USERNAME_INVALID
  | USER_ID_MULTIPLE
  | USER_ID_REQUIRED
  | PASSWORD_INVALID
  | REGION_INVALID
  | ACCOUNT_ID_INVALID
  | ACCOUNT_ID_DEFAULT
  | SESSION_ID_INVALID
  | SESSION_ID_DEFAULT
  | GLUCOSE_READING_INVALID
  | SERVER_INVALID_JSON
  | SERVER_UNKNOWN_CODE
  | SERVER_UNEXPECTED
deriving DecidableEq, Repr

/-- The four error classes of src/errors.ts (`AccountError`, `SessionError`,
`ArgumentError`, `ServerError`), each carrying its reason code.  The TS class
hierarchy is modelled as a sum type. -/
inductive DexcomError where
  | account (c : DexcomErrorCode)
  | session (c : DexcomErrorCode)
  | argument (c : DexcomErrorCode)
  | server (c : DexcomErrorCode)
deriving DecidableEq, Repr

/-- JS string truthiness for an optional string: `undefined`/`null` and the
empty string are falsy. -/
def truthyStr : Option String → Bool
  | some s => s ≠ ""
  | none => false

/-- Check that `p` occurs at the start of `l` (character lists). -/
def listStartsWith : List Char → List Char → Bool
  | [], _ => true
  | _ :: _, [] => false
  | p :: ps, c :: cs => p == c && listStartsWith ps cs

/-- Check that `p` occurs somewhere inside `l` (character lists). -/
def listHasSub (p : List Char) : List Char → Bool
  | [] => listStartsWith p []
  | c :: cs => listStartsWith p (c :: cs) || listHasSub p cs

/-- Substring test, modelling JavaScript `String.prototype.includes`. -/
def strContains (s pat : String) : Bool := listHasSub pat.data s.data

/-- Model of `message?.includes(pat)`: an absent message is falsy. -/
def msgContains (message : Option String) (pat : String) : Bool :=
  match message with
  | some m => strContains m pat
  | none => false

/-- Hexadecimal digit test, matching the character class of the UUID regex in
src/util.ts. -/
def isHexDigit (c : Char) : Bool :=
  (('0' ≤ c) && (c ≤ '9')) || (('a' ≤ c) && (c ≤ 'f')) || (('A' ≤ c) && (c ≤ 'F'))

/-- Position check for the UUID regex: dashes at indices 8, 13, 18, 23 and hex
digits everywhere else. -/
def uuidCharOk (p : Nat × Char) : Bool :=
  if p.1 == 8 || p.1 == 13 || p.1 == 18 || p.1 == 23 then p.2 == '-' else isHexDigit p.2

/-- Model of `isValidUUID` (src/util.ts): the regex
`[0-9a-fA-F]x8 - [0-9a-fA-F]x4 - [0-9a-fA-F]x4 - [0-9a-fA-F]x4 - [0-9a-fA-F]x12`
anchored at both ends, i.e. a 36-character string with dashes exactly at
indices 8, 13, 18, 23 and hex digits elsewhere. -/
def isValidUUID (s : String) : Bool :=
  s.data.length == 36 && s.data.enum.all uuidCharOk

/-- Model of the `zAuthString` schema (src/schemas.ts): a string matching
`[0-9a-fA-F-]x36` (exactly 36 characters, each a hex digit or dash). -/
def zAuthStringOk (s : String) : Bool :=
  s.data.length == 36 && s.data.all (fun c => isHexDigit c || c == '-')

/-- The all-zero sentinel UUID `DEFAULT_UUID` (src/constants.ts). -/
def DEFAULT_UUID : String := "00000000-0000-0000-0000-000000000000"

/-- The upstream error body after JSON parsing, as read by `handleErrorCode`:
an object with optional string fields `Code` and `Message`.  `none` at the
outer level models a body that is not a (non-null) object. -/
structure ErrJson where
  code : Option String
  message : Option String
deriving DecidableEq, Repr

/-- Model of `Dexcom.handleErrorCode` (src/dexcom.ts lines 141-173), the error
classifier.  Conditions are laid out in source order; the TS nested `if`
blocks without `else` (for `SSO_InternalError` and `InvalidArgument`) fall
through to the later checks, which the flattened chain reproduces exactly. -/
def handleErrorCode (json : Option ErrJson) : DexcomError :=
  let code : Option String := match json with | some j => j.code | none => none
  let message : Option String := match json with | some j => j.message | none => none
  if code == some "SessionIdNotFound" then .session .SESSION_NOT_FOUND
  else if code == some "SessionNotValid" then .session .SESSION_INVALID
  else if code == some "AccountPasswordInvalid" then .account .ACCOUNT_FAILED_AUTHENTICATION
  else if code == some "SSO_AuthenticateMaxAttemptsExceeded" then .account .ACCOUNT_MAX_ATTEMPTS
  else if code == some "SSO_InternalError"
       && truthyStr message
       && (msgContains message "Cannot Authenticate by AccountName"
           || msgContains message "Cannot Authenticate by AccountId") then
    .account .ACCOUNT_FAILED_AUTHENTICATION
  else if code == some "InvalidArgument" && msgContains message "accountName" then
    .argument .USERNAME_INVALID
  else if code == some "InvalidArgument" && msgContains message "password" then
    .argument .PASSWORD_INVALID
  else if code == some "InvalidArgument" && msgContains message "UUID" then
    .argument .ACCOUNT_ID_INVALID
  else if truthyStr code && truthyStr message then .server .SERVER_UNKNOWN_CODE
  else .server .SERVER_UNEXPECTED

/-- Modelled from the spec: the classifier decision table of section 4.4 read
with the claim C2 wording, where the `UnknownServerCode` row requires a
non-empty code together with a merely *present* message (possibly empty).
Rows are evaluated in order, first match wins. -/
def tableClassify (json : Option ErrJson) : DexcomError :=
  match json with
  | none => .server .SERVER_UNEXPECTED
  | some j =>
    if j.code = some "SessionIdNotFound" then .session .SESSION_NOT_FOUND
    else if j.code = some "SessionNotValid" then .session .SESSION_INVALID
    else if j.code = some "AccountPasswordInvalid" then .account .ACCOUNT_FAILED_AUTHENTICATION
    else if j.code = some "SSO_AuthenticateMaxAttemptsExceeded" then
      .account .ACCOUNT_MAX_ATTEMPTS
    else if j.code = some "SSO_InternalError"
         ∧ (msgContains j.message "Cannot Authenticate by AccountName"
            ∨ msgContains j.message "Cannot Authenticate by AccountId") then
      .account .ACCOUNT_FAILED_AUTHENTICATION
    else if j.code = some "InvalidArgument" ∧ msgContains j.message "accountName" then
      .argument .USERNAME_INVALID
    else if j.code = some "InvalidArgument" ∧ msgContains j.message "password" then
      .argument .PASSWORD_INVALID
    else if j.code = some "InvalidArgument" ∧ msgContains j.message "UUID" then
      .argument .ACCOUNT_ID_INVALID
    else if truthyStr j.code ∧ j.message.isSome then .server .SERVER_UNKNOWN_CODE
    else .server .SERVER_UNEXPECTED

/-- Modelled from the spec: the same decision table amended so that the
`UnknownServerCode` row requires both a non-empty code and a non-empty
message, matching the JS truthiness test `code && message` in the source. -/
def tableClassifyAmended (json : Option ErrJson) : DexcomError :=
  match json with
  | none => .server .SERVER_UNEXPECTED
  | some j =>
    if j.code = some "SessionIdNotFound" then .session .SESSION_NOT_FOUND
    else if j.code = some "SessionNotValid" then .session .SESSION_INVALID
    else if j.code = some "AccountPasswordInvalid" then .account .ACCOUNT_FAILED_AUTHENTICATION
    else if j.code = some "SSO_AuthenticateMaxAttemptsExceeded" then
      .account .ACCOUNT_MAX_ATTEMPTS
    else if j.code = some "SSO_InternalError"
         ∧ (msgContains j.message "Cannot Authenticate by AccountName"
            ∨ msgContains j.message "Cannot Authenticate by AccountId") then
      .account .ACCOUNT_FAILED_AUTHENTICATION
    else if j.code = some "InvalidArgument" ∧ msgContains j.message "accountName" then
      .argument .USERNAME_INVALID
    else if j.code = some "InvalidArgument" ∧ msgContains j.message "password" then
      .argument .PASSWORD_INVALID
    else if j.code = some "InvalidArgument" ∧ msgContains j.message "UUID" then
      .argument .ACCOUNT_ID_INVALID
    else if truthyStr j.code ∧ truthyStr j.message then .server .SERVER_UNKNOWN_CODE
    else .server .SERVER_UNEXPECTED

/-- Binary minimum on rationals, modelling JavaScript `Math.min` on finite
numbers. -/
def ratMin (a b : Rat) : Rat := if a ≤ b then a else b

/-- Binary maximum on rationals, modelling JavaScript `Math.max` on finite
numbers. -/
def ratMax (a b : Rat) : Rat := if a ≤ b then b else a

/-- State of a `MemorySessionCache` (src/cache.ts): the stored id (initially
`null`) and the expiry timestamp in ms (initially 0).  Wall-clock time is an
explicit `now : Int` parameter standing for `Date.now()`. -/
structure CacheState where
  id : Option String
  expiresAt : Int
deriving DecidableEq, Repr

namespace MemorySessionCache

/-- The initial cache state produced by `new MemorySessionCache()`. -/
def init : CacheState := { id := none, expiresAt := 0 }

/-- Model of `MemorySessionCache.get`: returns the id when it is truthy (JS
`this.id &&`, so the empty string never comes back) and `now` is strictly
before the expiry; otherwise `null`. -/
def get (st : CacheState) (now : Int) : Option String :=
  match st.id with
  | some s => if s ≠ "" ∧ now < st.expiresAt then some s else none
  | none => none

/-- Model of `MemorySessionCache.set`: stores the id with expiry
`now + max(0, ttlMs)`, overwriting any previous entry. -/
def set (st : CacheState) (now : Int) (id : String) (ttlMs : Int) : CacheState :=
  let _ := st
  { id := some id, expiresAt := now + max 0 ttlMs }

/-- Model of `MemorySessionCache.clear`: resets to the initial state. -/
def clear (st : CacheState) : CacheState :=
  let _ := st
  { id := none, expiresAt := 0 }

end MemorySessionCache

/-- The bounds record taken by `validateMinutesAndCount` (src/util.ts). -/
structure Bounds where
  minM : Rat
  maxM : Rat
  minC : Rat
  maxC : Rat
deriving DecidableEq, Repr

/-- The default bounds of `validateMinutesAndCount`, also the explicit bounds
passed by `Dexcom.getGlucoseReadings` (`MAX_MINUTES = 1440`,
`MAX_MAX_COUNT = 288`). -/
def defaultBounds : Bounds := { minM := 1, maxM := 1440, minC := 1, maxC := 288 }

/-- Model of `validateMinutesAndCount` (src/util.ts lines 33-44).  JavaScript
numbers are modelled as rationals; `Number.isInteger` becomes `Rat.isInt`.
Returns the reason code of the `ArgumentError` thrown, or `none` when the
guard passes. -/
def validateMinutesAndCount (minutes maxCount : Rat) (bounds : Bounds) :
    Option DexcomErrorCode :=
  if ¬ minutes.isInt ∨ minutes < bounds.minM ∨ bounds.maxM < minutes then
    some .MINUTES_INVALID
  else if ¬ maxCount.isInt ∨ maxCount < bounds.minC ∨ bounds.maxC < maxCount then
    some .MAX_COUNT_INVALID
  else none

/-- The pre-jitter delay of `backoff` (src/util.ts line 60):
`Math.min(max, base * 2 ** (attempt - 1))`. -/
def backoffRaw (attempt base maxD : Nat) : Nat :=
  min maxD (base * 2 ^ (attempt - 1))

/-- Model of `backoff` (src/util.ts lines 59-63).  `rand` stands for the value
of `Math.random()`, a number in `[0, 1)`; with jitter on the result is
`Math.floor(rand * (delay + 1))`. -/
def backoff (attempt base maxD : Nat) (jitter : Bool) (rand : Rat) : Rat :=
  let delay : Rat := (backoffRaw attempt base maxD : Nat)
  if ¬ jitter then delay else ((rand * (delay + 1)).floor : Int)

/-- The retry-after response header as seen by `fetchWithRetry`, classified by
how JavaScript parses it: `absent` covers a missing header and the empty
string (both falsy); `numeric v` a header for which `Number(ra)` is the finite
value `v`; `httpDate deltaMs` an HTTP-date lying `deltaMs` ms in the future
(`Number` yields NaN on these); `garbage` any other non-empty unparseable
string. -/
inductive RAHeader where
  | absent
  | numeric (v : Rat)
  | httpDate (deltaMs : Int)
  | garbage
deriving DecidableEq, Repr

/-- The per-attempt sleep decision of `fetchWithRetry` (src/util.ts lines
89-96), for an attempt that received a retryable status: with a truthy header
the slept duration is `min(raMs, maxDelayMs)` where `raMs` is
`Number(ra) * 1000` if finite and `baseDelayMs` otherwise; with no (or an
empty) header the exponential backoff is slept, but only when this is not the
final attempt.  Returns `none` when no sleep happens. -/
def retrySleep (h : RAHeader) (attempt retries base maxD : Nat) (jitter : Bool)
    (rand : Rat) : Option Rat :=
  match h with
  | .absent =>
    if attempt < retries then some (backoff attempt base maxD jitter rand) else none
  | .numeric v => some (ratMin (v * 1000) (maxD : Nat))
  | .httpDate _ => some (ratMin (base : Nat) ((maxD : Nat) : Rat))
  | .garbage => some (ratMin (base : Nat) ((maxD : Nat) : Rat))

/-- Modelled from the spec: the sleep decision as claim C3 states it.  A
header parseable as a non-negative integer sleeps that many seconds in ms,
capped; an HTTP-date sleeps the difference to the date clamped to at least
zero, capped; anything absent or unparseable falls back to the backoff
computation, and only when the attempt is not the final one. -/
def specRetrySleep (h : RAHeader) (attempt retries base maxD : Nat) (jitter : Bool)
    (rand : Rat) : Option Rat :=
  match h with
  | .numeric v =>
    if 0 ≤ v ∧ v.isInt then some (ratMin (v * 1000) (maxD : Nat))
    else if attempt < retries then some (backoff attempt base maxD jitter rand) else none
  | .httpDate deltaMs => some (ratMin (ratMax (deltaMs : Int) 0) (maxD : Nat))
  | .absent =>
    if attempt < retries then some (backoff attempt base maxD jitter rand) else none
  | .garbage =>
    if attempt < retries then some (backoff attempt base maxD jitter rand) else none

/-- What one iteration of the `fetchWithRetry` loop observes from `fetch`:
either a thrown network error or a response with a status and a retry-after
header. -/
inductive AttemptOutcome where
  | netThrow
  | response (status : Nat) (retryAfter : RAHeader)
deriving DecidableEq, Repr

/-- The last failure remembered in `lastErr` across loop iterations. -/
inductive LastE where
  | nothing
  | http (status : Nat)
  | net
deriving DecidableEq, Repr

/-- Overall outcome of `fetchWithRetry`: a response returned to the caller
(with the attempt number that produced it), the last network error rethrown
on the final attempt, the synthesized `HTTP status` error thrown after
exhausting all attempts, or the degenerate `retries = 0` failure. -/
inductive FetchResult where
  | returned (attempt status : Nat)
  | failedNet
  | failedHttp (status : Nat)
  | failedEmpty
deriving DecidableEq, Repr

/-- Loop body of `fetchWithRetry` (src/util.ts lines 84-109), by recursion on
the number of remaining attempts.  `o` gives the outcome of the fetch at each
attempt number, `rand` the `Math.random()` draw used by a backoff at that
attempt.  Returns the result together with the list of
`(attempt, slept duration in ms)` pairs, in order. -/
def fetchRetryAux (o : Nat → AttemptOutcome) (retryOn : List Nat)
    (retries base maxD : Nat) (jitter : Bool) (rand : Nat → Rat) :
    Nat → Nat → LastE → FetchResult × List (Nat × Rat)
  | _, 0, lastE =>
    (match lastE with
     | .http st => .failedHttp st
     | .net => .failedNet
     | .nothing => .failedEmpty, [])
  | attempt, fuel + 1, _ =>
    match o attempt with
    | .netThrow =>
      if attempt < retries then
        let d := backoff attempt base maxD jitter (rand attempt)
        let r := fetchRetryAux o retryOn retries base maxD jitter rand (attempt + 1) fuel .net
        (r.1, (attempt, d) :: r.2)
      else (.failedNet, [])
    | .response st h =>
      if st ∈ retryOn then
        match retrySleep h attempt retries base maxD jitter (rand attempt) with
        | some d =>
          let r := fetchRetryAux o retryOn retries base maxD jitter rand (attempt + 1) fuel
            (.http st)
          (r.1, (attempt, d) :: r.2)
        | none =>
          let r := fetchRetryAux o retryOn retries base maxD jitter rand (attempt + 1) fuel
            (.http st)
          (r.1, r.2)
      else (.returned attempt st, [])

/-- Model of `fetchWithRetry` (src/util.ts lines 69-110): run the loop from
attempt 1 with `retries` attempts available and nothing in `lastErr`.  The TS
defaults are `retries = 3`, `baseDelayMs = 200`, `maxDelayMs = 4000`,
`jitter = true`, `retryOnStatuses = [429, 500, 502, 503, 504]`. -/
def fetchWithRetry (o : Nat → AttemptOutcome) (retryOn : List Nat)
    (retries base maxD : Nat) (jitter : Bool) (rand : Nat → Rat) :
    FetchResult × List (Nat × Rat) :=
  fetchRetryAux o retryOn retries base maxD jitter rand 1 retries .nothing

/-- The region selector (src/constants.ts). -/
inductive Region where
  | us
  | ous
  | jp
deriving DecidableEq, Repr

/-- Model of `Dexcom.validateRegion` (src/dexcom.ts lines 177-181):
membership in `Object.values(Region)`. -/
def validateRegion (r : Region) : Option DexcomErrorCode :=
  if r = .us ∨ r = .ous ∨ r = .jp then none else some .REGION_INVALID

/-- Model of `Dexcom.validateUserIds` (src/dexcom.ts lines 183-187):
`Number(Boolean(accountId)) + Number(Boolean(username))` must be exactly 1. -/
def validateUserIds (accountId username : Option String) : Option DexcomErrorCode :=
  let count : Nat := (if truthyStr accountId then 1 else 0) + (if truthyStr username then 1 else 0)
  if count = 0 then some .USER_ID_REQUIRED
  else if count ≠ 1 then some .USER_ID_MULTIPLE
  else none

/-- The mutable per-client fields of the `Dexcom` class that the session flow
reads or writes. -/
structure ClientState where
  username : Option String
  accountId : Option String
  password : String
  sessionTtlMs : Int
  cache : CacheState
deriving DecidableEq, Repr

/-- Model of the `Dexcom` constructor (src/dexcom.ts lines 77-101): validate
the region, then the identity fields, then store everything; the cache starts
as a fresh `MemorySessionCache`.  No network call is involved. -/
def mkDexcom (password : String) (username accountId : Option String) (region : Region)
    (sessionTtlMs : Int) : Except DexcomError ClientState :=
  match validateRegion region with
  | some e => .error (.argument e)
  | none =>
    match validateUserIds accountId username with
    | some e => .error (.argument e)
    | none =>
      .ok { username := username, accountId := accountId, password := password,
            sessionTtlMs := sessionTtlMs, cache := MemorySessionCache.init }

/-- Events recorded while running the session flow: the three network
endpoints (`authenticate` = AuthenticatePublisherAccount, `loginById` =
LoginPublisherAccountById, `readings` = ReadPublisherLatestGlucoseValues) and
the two cache mutations. -/
inductive Call where
  | authenticate
  | loginById
  | readings (minutes maxCount : Rat)
  | cacheSet (token : String) (ttlMs : Int)
  | cacheClear
deriving DecidableEq, Repr

/-- What `Dexcom.post` can observe for one request, after `fetchWithRetry`
and JSON parsing: a 2xx bare-string body, a 2xx readings array that passes the
`zRawGlucoseArray` schema (readings abstracted as integers), a 2xx payload
that fails schema validation, a non-2xx response with parsed body `j` (fed to
`handleErrorCode`), a body that is not valid JSON, or an exhausted/thrown
transport failure. -/
inductive Resp where
  | body (s : String)
  | readingsOk (rs : List Int)
  | badPayload
  | httpErr (j : Option ErrJson)
  | invalidJson
  | netFail
deriving DecidableEq, Repr

/-- Errors escaping the client flow: a typed `DexcomError`, a Zod validation
error (`zAuthString` / `zRawGlucoseArray` parse failure — not a
`DexcomError`), or a plain transport error.  Only `dexcom (session _)`
matches `err instanceof SessionError`. -/
inductive ClientErr where
  | dexcom (e : DexcomError)
  | zod
  | net
deriving DecidableEq, Repr

/-- True exactly for errors that are `instanceof SessionError`. -/
def isSessionError : ClientErr → Bool
  | .dexcom (.session _) => true
  | _ => false

/-- A run in progress: the client fields, the index of the next oracle
response, and the trace of events so far. -/
structure RunState where
  client : ClientState
  k : Nat
  trace : List Call
deriving DecidableEq, Repr

/-- Record one network call: consume the next oracle response and append the
event to the trace. -/
def netCall (s : RunState) (c : Call) : RunState :=
  { s with k := s.k + 1, trace := s.trace ++ [c] }

/-- Append a cache event to the trace without consuming oracle input. -/
def logEvent (s : RunState) (c : Call) : RunState :=
  { s with trace := s.trace ++ [c] }

/-- Shared handling of the two authentication endpoints
(`Dexcom.obtainAccountId` / `Dexcom.obtainSessionId`, src/dexcom.ts lines
191-211): issue the POST, then parse the body with `zAuthString` — a body
that is not a 36-character hex-or-dash string makes Zod throw. -/
def postAuth (o : Nat → Resp) (tag : Call) (s : RunState) :
    Except ClientErr String × RunState :=
  let r := o s.k
  let s1 := netCall s tag
  match r with
  | .body str => if zAuthStringOk str then (.ok str, s1) else (.error .zod, s1)
  | .readingsOk _ => (.error .zod, s1)
  | .badPayload => (.error .zod, s1)
  | .httpErr j => (.error (.dexcom (handleErrorCode j)), s1)
  | .invalidJson => (.error (.dexcom (.server .SERVER_INVALID_JSON)), s1)
  | .netFail => (.error .net, s1)

/-- Model of `Dexcom.obtainAccountId`: POST to the authenticate endpoint. -/
def obtainAccountId (o : Nat → Resp) (s : RunState) : Except ClientErr String × RunState :=
  postAuth o .authenticate s

/-- Model of `Dexcom.obtainSessionId`: POST to the login-by-id endpoint. -/
def obtainSessionId (o : Nat → Resp) (s : RunState) : Except ClientErr String × RunState :=
  postAuth o .loginById s

/-- The readings POST inside `Dexcom.fetchRawReadings` (src/dexcom.ts lines
246-255), with the `zRawGlucoseArray` parse. -/
def postReadings (o : Nat → Resp) (minutes maxCount : Rat) (s : RunState) :
    Except ClientErr (List Int) × RunState :=
  let r := o s.k
  let s1 := netCall s (.readings minutes maxCount)
  match r with
  | .readingsOk rs => (.ok rs, s1)
  | .body _ => (.error .zod, s1)
  | .badPayload => (.error .zod, s1)
  | .httpErr j => (.error (.dexcom (handleErrorCode j)), s1)
  | .invalidJson => (.error (.dexcom (.server .SERVER_INVALID_JSON)), s1)
  | .netFail => (.error .net, s1)

/-- The accountId-ensuring step of `Dexcom.ensureSession` (src/dexcom.ts
lines 221-229): when `this.accountId` is falsy, validate that username and
password are non-empty strings, call the account-authentication endpoint and
store the result in `this.accountId`; when it is truthy, keep it. -/
def ensureAccountId (o : Nat → Resp) (s : RunState) :
    Except ClientErr String × RunState :=
  if truthyStr s.client.accountId then (.ok (s.client.accountId.getD ""), s)
  else if ¬ truthyStr s.client.username then
    (.error (.dexcom (.argument .USERNAME_INVALID)), s)
  else if s.client.password = "" then
    (.error (.dexcom (.argument .PASSWORD_INVALID)), s)
  else
    match obtainAccountId o s with
    | (.ok a, s1) => (.ok a, { s1 with client := { s1.client with accountId := some a } })
    | (.error e, s1) => (.error e, s1)

/-- The fresh-session path of `Dexcom.ensureSession` (src/dexcom.ts lines
220-242), taken when the cache gave nothing usable: derive the account id if
`this.accountId` is falsy (validating username and password first), validate
it as a non-sentinel UUID, obtain the session id, validate it likewise, store
it in the cache with the configured TTL and return it. -/
def buildFreshSession (o : Nat → Resp) (now : Int) (s : RunState) :
    Except ClientErr String × RunState :=
  match ensureAccountId o s with
  | (.error e, s1) => (.error e, s1)
  | (.ok aid, s1) =>
    if ¬ isValidUUID aid then (.error (.dexcom (.argument .ACCOUNT_ID_INVALID)), s1)
    else if aid = DEFAULT_UUID then (.error (.dexcom (.argument .ACCOUNT_ID_DEFAULT)), s1)
    else
      match obtainSessionId o s1 with
      | (.error e, s2) => (.error e, s2)
      | (.ok sid, s2) =>
        if ¬ isValidUUID sid then (.error (.dexcom (.argument .SESSION_ID_INVALID)), s2)
        else if sid = DEFAULT_UUID then
          (.error (.dexcom (.argument .SESSION_ID_DEFAULT)), s2)
        else
          let s3 :=
            { logEvent s2 (.cacheSet sid s2.client.sessionTtlMs) with
              client :=
                { s2.client with
                  cache :=
                    MemorySessionCache.set s2.client.cache now sid
                      s2.client.sessionTtlMs } }
          (.ok sid, s3)

/-- Model of `Dexcom.ensureSession` (src/dexcom.ts lines 213-242): return a
cached truthy, well-formed, non-sentinel token without touching the network;
otherwise build a fresh session. -/
def ensureSession (o : Nat → Resp) (now : Int) (s : RunState) :
    Except ClientErr String × RunState :=
  match MemorySessionCache.get s.client.cache now with
  | some cached =>
    if cached ≠ "" ∧ isValidUUID cached ∧ cached ≠ DEFAULT_UUID then (.ok cached, s)
    else buildFreshSession o now s
  | none => buildFreshSession o now s

/-- Model of `Dexcom.fetchRawReadings` (src/dexcom.ts lines 246-255): ensure
a session, then issue the readings request. -/
def fetchRawReadings (o : Nat → Resp) (now : Int) (minutes maxCount : Rat)
    (s : RunState) : Except ClientErr (List Int) × RunState :=
  match ensureSession o now s with
  | (.error e, s1) => (.error e, s1)
  | (.ok _, s1) => postReadings o minutes maxCount s1

/-- The cache-clearing state update performed by `getGlucoseReadings` when it
catches a `SessionError` (`await this.cache.clear()`). -/
def clearSessionCache (s : RunState) : RunState :=
  { logEvent s .cacheClear with
    client := { s.client with cache := MemorySessionCache.clear s.client.cache } }

/-- Model of `Dexcom.getGlucoseReadings` (src/dexcom.ts lines 261-284):
validate the bounds, fetch; on a `SessionError` clear the cache and retry the
whole fetch sequence once, without catching anything the second time. -/
def getGlucoseReadings (o : Nat → Resp) (now : Int) (minutes maxCount : Rat)
    (s : RunState) : Except ClientErr (List Int) × RunState :=
  match validateMinutesAndCount minutes maxCount defaultBounds with
  | some e => (.error (.dexcom (.argument e)), s)
  | none =>
    match fetchRawReadings o now minutes maxCount s with
    | (.ok rs, s1) => (.ok rs, s1)
    | (.error e, s1) =>
      if isSessionError e then
        fetchRawReadings o now minutes maxCount (clearSessionCache s1)
      else (.error e, s1)

/-- Number of account-authentication calls in a trace. -/
def countAuthenticate (tr : List Call) : Nat :=
  (tr.filter (fun c => match c with | .authenticate => true | _ => false)).length

/-- Number of session-login calls in a trace. -/
def countLogin (tr : List Call) : Nat :=
  (tr.filter (fun c => match c with | .loginById => true | _ => false)).length

/-- Number of readings requests in a trace. -/
def countReadings (tr : List Call) : Nat :=
  (tr.filter (fun c => match c with | .readings _ _ => true | _ => false)).length

/-- A concrete well-formed account id used in witness scenarios. -/
def uuidA : String := "12345678-1234-1234-1234-123456789abc"

/-- A concrete well-formed session id used in witness scenarios. -/
def uuidS : String := "87654321-4321-4321-4321-cba987654321"

/-- A second concrete session id, for the self-healing retry scenario. -/
def uuidS2 : String := "aaaabbbb-cccc-dddd-eeee-ffff00001111"

/-- Demo oracle: account authentication, session login, then two successful
readings responses. -/
def demoOracle : Nat → Resp := fun k =>
  if k = 0 then .body uuidA
  else if k = 1 then .body uuidS
  else if k = 2 then .readingsOk [85]
  else .readingsOk [90]

/-- Demo initial run state: a username-only client with the default 8-minute
TTL and a fresh in-memory cache. -/
def demoS0 : RunState :=
  { client :=
      { username := some "user", accountId := none, password := "pw",
        sessionTtlMs := 480000, cache := MemorySessionCache.init },
    k := 0, trace := [] }

/-- Oracle for the self-healing scenario: a session is built, the first
readings request is rejected with `SessionIdNotFound`, and after the retry a
fresh session and a successful readings response follow. -/
def retryOracle : Nat → Resp := fun k =>
  if k = 0 then .body uuidA
  else if k = 1 then .body uuidS
  else if k = 2 then .httpErr (some { code := some "SessionIdNotFound", message := some "x" })
  else if k = 3 then .body uuidS2
  else .readingsOk [42]

/-- Oracle in which every authentication endpoint answers with the all-zero
sentinel UUID. -/
def sentinelOracle : Nat → Resp := fun _ => .body DEFAULT_UUID

/-- Transport oracle for the C3 counterexample: the first attempt receives a
429 carrying an HTTP-date retry hint denoting the current instant, the second
a 200. -/
def dateHintOracle : Nat → AttemptOutcome := fun k =>
  if k = 1 then .response 429 (.httpDate 0) else .response 200 .absent

/-- Transport oracle whose first attempt receives a 429 with an unparseable
retry hint. -/
def garbageHintOracle : Nat → AttemptOutcome := fun k =>
  if k = 1 then .response 429 .garbage else .response 200 .absent

/-- Helper: the jittered backoff value is between 0 and the pre-jitter delay
whenever the random draw lies in `[0, 1)`. -/
theorem backoff_jitter_bounds (attempt base maxD : Nat) (rand : Rat)
    (h0 : 0 ≤ rand) (h1 : rand < 1) :
    0 ≤ backoff attempt base maxD true rand ∧
      backoff attempt base maxD true rand ≤ (backoffRaw attempt base maxD : Rat) := by
  have hfloor : ∀ q : Rat, q.floor = Int.floor q := fun _ => rfl
  have hdpos : (0:Rat) < (backoffRaw attempt base maxD : Rat) + 1 := by positivity
  have hlt : rand * ((backoffRaw attempt base maxD : Rat) + 1) <
      (backoffRaw attempt base maxD : Rat) + 1 := by
    calc rand * ((backoffRaw attempt base maxD : Rat) + 1)
        < 1 * ((backoffRaw attempt base maxD : Rat) + 1) :=
          mul_lt_mul_of_pos_right h1 hdpos
      _ = (backoffRaw attempt base maxD : Rat) + 1 := one_mul _
  have hnn : (0:Rat) ≤ rand * ((backoffRaw attempt base maxD : Rat) + 1) := by positivity
  constructor
  · show (0:Rat) ≤ _
    simp only [backoff, hfloor]
    norm_num
    exact Int.floor_nonneg.mpr hnn
  · show _ ≤ _
    simp only [backoff, hfloor]
    norm_num
    have hup : Int.floor (rand * ((backoffRaw attempt base maxD : Rat) + 1)) <
        (backoffRaw attempt base maxD : Int) + 1 := by
      rw [Int.floor_lt]
      push_cast
      exact hlt
    have hle : Int.floor (rand * ((backoffRaw attempt base maxD : Rat) + 1)) ≤
        (backoffRaw attempt base maxD : Int) := by omega
    exact_mod_cast Int.cast_le.mpr hle

/-- C4: for every positive attempt number and non-negative base and cap, the
pre-jitter delay equals `min(cap, base * 2^(attempt-1))`; with jitter disabled
`backoff` returns exactly that value; with jitter enabled it returns a value
in `[0, raw]`; and in all cases the returned delay never exceeds the cap. -/
theorem backoff_delay_bounds (attempt base maxD : Nat) (jitter : Bool) (rand : Rat)
    (hatt : 1 ≤ attempt) (h0 : 0 ≤ rand) (h1 : rand < 1) :
    backoffRaw attempt base maxD = min maxD (base * 2 ^ (attempt - 1)) ∧
    backoff attempt base maxD false rand = (backoffRaw attempt base maxD : Rat) ∧
    (0 ≤ backoff attempt base maxD true rand ∧
      backoff attempt base maxD true rand ≤ (backoffRaw attempt base maxD : Rat)) ∧
    backoff attempt base maxD jitter rand ≤ (maxD : Rat) := by
  have hraw : (backoffRaw attempt base maxD : Rat) ≤ (maxD : Rat) := by
    exact_mod_cast Nat.cast_le.mpr (Nat.min_le_left _ _)
  refine ⟨rfl, by simp [backoff], backoff_jitter_bounds attempt base maxD rand h0 h1, ?_⟩
  cases jitter with
  | false => simpa [backoff] using hraw
  | true =>
    exact le_trans (backoff_jitter_bounds attempt base maxD rand h0 h1).2 hraw

/-- Witness for `backoff_delay_bounds` at attempt 3, base 200 ms, cap 4000 ms,
jitter on, random draw 1/2. -/
theorem backoff_delay_bounds_witness :
    backoffRaw 3 200 4000 = min 4000 (200 * 2 ^ (3 - 1)) ∧
    backoff 3 200 4000 false (mkRat 1 2) = (backoffRaw 3 200 4000 : Rat) ∧
    (0 ≤ backoff 3 200 4000 true (mkRat 1 2) ∧
      backoff 3 200 4000 true (mkRat 1 2) ≤ (backoffRaw 3 200 4000 : Rat)) ∧
    backoff 3 200 4000 true (mkRat 1 2) ≤ ((4000 : Nat) : Rat) :=
  backoff_delay_bounds 3 200 4000 true (mkRat 1 2) (by decide) (by decide)
    (by with_unfolding_all decide)

/-- C8 counterexample: after `set("", 1000)` at time 0 the cache holds the
empty-string token with expiry 1000, yet `get` at time 0 returns no value
even though something is stored and the current time is before the expiry —
the JS truthiness test `this.id &&` filters the empty string out, which the
claim's characterization of `get` does not allow. -/
theorem memoryCache_get_claim_cx :
    MemorySessionCache.set MemorySessionCache.init 0 "" 1000 =
      { id := some "", expiresAt := 1000 } ∧
    ¬ (MemorySessionCache.get { id := some "", expiresAt := 1000 } 0 = none ↔
        ({ id := some "", expiresAt := 1000 } : CacheState).id = none ∨
        ({ id := some "", expiresAt := 1000 } : CacheState).expiresAt ≤ 0) := by
  constructor
  · simp [MemorySessionCache.set, MemorySessionCache.init]
  · decide

/-- C8 amended: `get` returns no value exactly when nothing is stored, the
stored token is the empty string, or the current time is at or past the
expiry (and otherwise returns exactly the stored token); `set` stores the
token with expiry `now + max(0, ttl)`, overwriting any prior entry; `set`
with a non-positive ttl followed immediately by `get` yields no value; and
`get` after `clear` yields no value. -/
theorem memoryCache_contract (st : CacheState) (now : Int) (tok : String) (ttl : Int) :
    (MemorySessionCache.get st now = none ↔
      st.id = none ∨ st.id = some "" ∨ st.expiresAt ≤ now) ∧
    (∀ t, MemorySessionCache.get st now = some t → st.id = some t) ∧
    MemorySessionCache.set st now tok ttl = { id := some tok, expiresAt := now + max 0 ttl } ∧
    (ttl ≤ 0 → MemorySessionCache.get (MemorySessionCache.set st now tok ttl) now = none) ∧
    MemorySessionCache.get (MemorySessionCache.clear st) now = none := by
  refine ⟨?_, ?_, rfl, ?_, rfl⟩
  · match h : st.id with
    | none => simp [MemorySessionCache.get, h]
    | some s =>
      by_cases hs : s = ""
      · subst hs
        simp [MemorySessionCache.get, h]
      · by_cases ht : now < st.expiresAt
        · simp only [MemorySessionCache.get, h, if_pos (And.intro hs ht)]
          constructor
          · intro hx
            exact (Option.some_ne_none s hx).elim
          · rintro (hx | hx | hx)
            · exact hx
            · injection hx with hx
              exact absurd hx hs
            · omega
        · have hif : ¬ (s ≠ "" ∧ now < st.expiresAt) := fun hc => ht hc.2
          simp only [MemorySessionCache.get, h, if_neg hif, true_iff]
          right
          right
          omega
  · intro t ht
    match h : st.id with
    | none => simp [MemorySessionCache.get, h] at ht
    | some s =>
      simp only [MemorySessionCache.get, h] at ht
      split at ht
      · exact ht
      · exact Option.noConfusion ht
  · intro httl
    have hmax : max (0:Int) ttl = 0 := max_eq_left httl
    simp [MemorySessionCache.get, MemorySessionCache.set, hmax]

/-- Witness for `memoryCache_contract`: a concrete state, a negative ttl. -/
theorem memoryCache_contract_witness :
    MemorySessionCache.get
      (MemorySessionCache.set { id := some "ab", expiresAt := 5 } 9 "tok" (-3)) 9 = none :=
  (memoryCache_contract { id := some "ab", expiresAt := 5 } 9 "tok" (-3)).2.2.2.1
    (by decide)

/-- C9: for every combination of constructor parameters, construction
succeeds exactly when exactly one of the identifying fields is truthy (a
present, non-empty string — the JS `Boolean` test used by `validateUserIds`);
with neither field truthy it fails with the `required` argument error, with
both truthy with the `multiple` argument error, and no network is involved
(the constructor is a pure state builder in this model); a successfully
constructed instance carries exactly one truthy identifying field. -/
theorem mkDexcom_identity_invariant (password : String) (username accountId : Option String)
    (region : Region) (ttl : Int) :
    ((∃ st, mkDexcom password username accountId region ttl = .ok st) ↔
      ((truthyStr accountId = true ∧ truthyStr username = false) ∨
       (truthyStr accountId = false ∧ truthyStr username = true))) ∧
    (truthyStr accountId = false → truthyStr username = false →
      mkDexcom password username accountId region ttl =
        .error (.argument .USER_ID_REQUIRED)) ∧
    (truthyStr accountId = true → truthyStr username = true →
      mkDexcom password username accountId region ttl =
        .error (.argument .USER_ID_MULTIPLE)) ∧
    (∀ st, mkDexcom password username accountId region ttl = .ok st →
      ((truthyStr st.accountId = true ∧ truthyStr st.username = false) ∨
       (truthyStr st.accountId = false ∧ truthyStr st.username = true))) := by
  have hr : validateRegion region = none := by
    cases region <;> simp [validateRegion]
  cases hA : truthyStr accountId <;> cases hU : truthyStr username <;>
    simp [mkDexcom, validateUserIds, hA, hU, hr] <;>
    intro st hst <;>
    first
      | (cases hst; simp [hA, hU])
      | exact hst.elim

/-- Witness for `mkDexcom_identity_invariant`: both identity fields given and
non-empty, so construction is refused with the `multiple` error. -/
theorem mkDexcom_identity_invariant_witness :
    mkDexcom "pw" (some "user") (some "12345678-1234-1234-1234-123456789abc") .us 480000 =
      .error (.argument .USER_ID_MULTIPLE) :=
  (mkDexcom_identity_invariant "pw" (some "user")
      (some "12345678-1234-1234-1234-123456789abc") .us 480000).2.2.1 (by decide) (by decide)

/-- C2 counterexample: a body with the non-empty code `Boom` and the
empty-string message is classified `SERVER_UNEXPECTED` by the code (the JS
truthiness test `code && message` fails on an empty message), while the
claim's decision table, whose UnknownServerCode row only requires the message
to be present, yields `SERVER_UNKNOWN_CODE`. -/
theorem handleErrorCode_empty_message_cx :
    handleErrorCode (some { code := some "Boom", message := some "" }) =
      .server .SERVER_UNEXPECTED ∧
    tableClassify (some { code := some "Boom", message := some "" }) =
      .server .SERVER_UNKNOWN_CODE ∧
    handleErrorCode (some { code := some "Boom", message := some "" }) ≠
      tableClassify (some { code := some "Boom", message := some "" }) := by
  refine ⟨by decide, by decide, by decide⟩

/-- C2 amended: the classifier agrees with the spec's decision table, read in
order with first match winning, once the UnknownServerCode row is amended to
require a non-empty (rather than merely present) message alongside the
non-empty code. -/
theorem handleErrorCode_matches_table (json : Option ErrJson) :
    handleErrorCode json = tableClassifyAmended json := by
  match json with
  | none => rfl
  | some j =>
    rcases j with ⟨c, m⟩
    have hc1 : strContains "" "Cannot Authenticate by AccountName" = false := rfl
    have hc2 : strContains "" "Cannot Authenticate by AccountId" = false := rfl
    simp only [handleErrorCode, tableClassifyAmended]
    by_cases h1 : c = some "SessionIdNotFound"
    · simp [h1]
    by_cases h2 : c = some "SessionNotValid"
    · simp [h1, h2]
    by_cases h3 : c = some "AccountPasswordInvalid"
    · simp [h1, h2, h3]
    by_cases h4 : c = some "SSO_AuthenticateMaxAttemptsExceeded"
    · simp [h1, h2, h3, h4]
    by_cases h5 : c = some "SSO_InternalError"
    · rcases m with _ | ms
      · simp [h1, h2, h3, h4, h5, msgContains, truthyStr]
      · by_cases hms : ms = ""
        · subst hms
          simp [h1, h2, h3, h4, h5, msgContains, truthyStr, hc1, hc2]
        · simp [h1, h2, h3, h4, h5, msgContains, truthyStr, hms]
    by_cases h6 : c = some "InvalidArgument"
    · rcases m with _ | ms
      · simp [h1, h2, h3, h4, h5, h6, msgContains, truthyStr]
      · by_cases hms : ms = ""
        · subst hms
          simp [h1, h2, h3, h4, h5, h6, msgContains, truthyStr]
        · simp [h1, h2, h3, h4, h5, h6, msgContains, truthyStr, hms]
    · rcases m with _ | ms
      · simp [h1, h2, h3, h4, h5, h6, msgContains, truthyStr]
      · simp [h1, h2, h3, h4, h5, h6, msgContains, truthyStr]

/-- C7: every integer pair with minutes in [1,1440] and maxCount in [1,288]
passes the bounds guard of `getGlucoseReadings` without an argument error,
and every non-integer or out-of-range pair makes `getGlucoseReadings` fail
with an `ArgumentError` while leaving the run state untouched — so before any
network call and before any session establishment. -/
theorem getGlucoseReadings_bounds_validation (o : Nat → Resp) (now : Int) (s : RunState) :
    (∀ m c : Int, 1 ≤ m → m ≤ 1440 → 1 ≤ c → c ≤ 288 →
      validateMinutesAndCount (m : Rat) (c : Rat) defaultBounds = none) ∧
    (∀ m c : Rat,
      (¬ m.isInt ∨ m < 1 ∨ 1440 < m ∨ ¬ c.isInt ∨ c < 1 ∨ 288 < c) →
      ∃ e, getGlucoseReadings o now m c s = (.error (.dexcom (.argument e)), s)) := by
  constructor
  · intro m c hm1 hm2 hc1 hc2
    have him : ((m : Rat)).isInt = true := by
      simp [Rat.isInt, Rat.den_intCast]
    have hic : ((c : Rat)).isInt = true := by
      simp [Rat.isInt, Rat.den_intCast]
    have q1 : ¬ ((m : Rat) < 1) := not_lt.mpr (by exact_mod_cast hm1)
    have q2 : ¬ ((1440 : Rat) < (m : Rat)) := not_lt.mpr (by exact_mod_cast hm2)
    have q3 : ¬ ((c : Rat) < 1) := not_lt.mpr (by exact_mod_cast hc1)
    have q4 : ¬ ((288 : Rat) < (c : Rat)) := not_lt.mpr (by exact_mod_cast hc2)
    simp [validateMinutesAndCount, defaultBounds, him, hic, q1, q2, q3, q4]
  · intro m c h
    have hsome : ∃ e, validateMinutesAndCount m c defaultBounds = some e := by
      by_cases hm : ¬ m.isInt ∨ m < 1 ∨ 1440 < m
      · exact ⟨.MINUTES_INVALID, by
          simp only [validateMinutesAndCount, defaultBounds]
          rw [if_pos (by simpa using hm)]⟩
      · have hcm : ¬ c.isInt ∨ c < 1 ∨ 288 < c := by tauto
        exact ⟨.MAX_COUNT_INVALID, by
          simp only [validateMinutesAndCount, defaultBounds]
          rw [if_neg (by simpa [defaultBounds] using hm), if_pos (by simpa [defaultBounds] using hcm)]⟩
    rcases hsome with ⟨e, he⟩
    exact ⟨e, by simp [getGlucoseReadings, he]⟩

/-- Witness for `getGlucoseReadings_bounds_validation`: minutes 3 / maxCount
288 pass; minutes 3/2 (a non-integer) is rejected with the state unchanged. -/
theorem getGlucoseReadings_bounds_validation_witness :
    validateMinutesAndCount ((3 : Int) : Rat) ((288 : Int) : Rat) defaultBounds = none ∧
    ∃ e, getGlucoseReadings demoOracle 0 (mkRat 3 2) 1 demoS0 =
      (.error (.dexcom (.argument e)), demoS0) :=
  ⟨(getGlucoseReadings_bounds_validation demoOracle 0 demoS0).1 3 288
      (by decide) (by decide) (by decide) (by decide),
   (getGlucoseReadings_bounds_validation demoOracle 0 demoS0).2 (mkRat 3 2) 1
      (Or.inl (by decide))⟩

/-- Helper: inversion of a successful per-attempt sleep decision. -/
theorem retrySleep_spec (h : RAHeader) (attempt retries base maxD : Nat) (jitter : Bool)
    (rand : Rat) (d : Rat)
    (hd : retrySleep h attempt retries base maxD jitter rand = some d) :
    (∃ v, h = .numeric v ∧ d = ratMin (v * 1000) ((maxD : Nat) : Rat)) ∨
    (((∃ dd, h = .httpDate dd) ∨ h = .garbage) ∧
      d = ratMin ((base : Nat) : Rat) ((maxD : Nat) : Rat)) ∨
    (h = .absent ∧ attempt < retries ∧ d = backoff attempt base maxD jitter rand) := by
  cases h with
  | absent =>
    right; right
    simp only [retrySleep] at hd
    split at hd
    · cases hd
      exact ⟨rfl, by assumption, rfl⟩
    · cases hd
  | numeric v =>
    left
    simp only [retrySleep] at hd
    cases hd
    exact ⟨v, rfl, rfl⟩
  | httpDate dd =>
    right; left
    simp only [retrySleep] at hd
    cases hd
    exact ⟨Or.inl ⟨dd, rfl⟩, rfl⟩
  | garbage =>
    right; left
    simp only [retrySleep] at hd
    cases hd
    exact ⟨Or.inr rfl, rfl⟩

/-- Helper: every recorded sleep of the transport loop is explained by the
attempt that produced it. -/
theorem fetchRetryAux_sleeps (o : Nat → AttemptOutcome) (retryOn : List Nat)
    (retries base maxD : Nat) (jitter : Bool) (rand : Nat → Rat) :
    ∀ (fuel attempt : Nat) (lastE : LastE) (p : Nat × Rat),
      p ∈ (fetchRetryAux o retryOn retries base maxD jitter rand attempt fuel lastE).2 →
      (o p.1 = .netThrow ∧ p.1 < retries ∧
        p.2 = backoff p.1 base maxD jitter (rand p.1)) ∨
      (∃ st h, o p.1 = .response st h ∧ st ∈ retryOn ∧
        ((∃ v, h = .numeric v ∧ p.2 = ratMin (v * 1000) ((maxD : Nat) : Rat)) ∨
         (((∃ dd, h = .httpDate dd) ∨ h = .garbage) ∧
           p.2 = ratMin ((base : Nat) : Rat) ((maxD : Nat) : Rat)) ∨
         (h = .absent ∧ p.1 < retries ∧
           p.2 = backoff p.1 base maxD jitter (rand p.1)))) := by
  intro fuel
  induction fuel with
  | zero =>
    intro attempt lastE p hp
    simp [fetchRetryAux] at hp
  | succ n ih =>
    intro attempt lastE p hp
    rcases ho : o attempt with _ | ⟨st, h⟩
    · by_cases hlt : attempt < retries
      · simp only [fetchRetryAux, ho, if_pos hlt] at hp
        rcases List.mem_cons.mp hp with hpe | hmem
        · subst hpe
          exact Or.inl ⟨ho, hlt, rfl⟩
        · exact ih (attempt + 1) .net p hmem
      · simp [fetchRetryAux, ho, hlt] at hp
    · by_cases hin : st ∈ retryOn
      · rcases hrs : retrySleep h attempt retries base maxD jitter (rand attempt)
          with _ | d
        · simp only [fetchRetryAux, ho, if_pos hin, hrs] at hp
          exact ih (attempt + 1) (.http st) p hp
        · simp only [fetchRetryAux, ho, if_pos hin, hrs] at hp
          rcases List.mem_cons.mp hp with hpe | hmem
          · subst hpe
            exact Or.inr ⟨st, h, ho, hin,
              retrySleep_spec h attempt retries base maxD jitter (rand attempt) d hrs⟩
          · exact ih (attempt + 1) (.http st) p hmem
      · simp [fetchRetryAux, ho, hin] at hp

/-- C3 amended: for every attempt of `fetchWithRetry` that slept, the slept
duration is: `min(v * 1000, cap)` when the retry hint parsed as the finite
number `v` (no sign or integrality check); `min(base, cap)` when the hint was
present but not numeric — HTTP-dates included — regardless of the attempt
number; and the exponential backoff for the attempt when the hint was absent
(or the attempt hit a network error), in which case it only happens when the
attempt is not the final one. -/
theorem fetchWithRetry_sleep_characterization (o : Nat → AttemptOutcome)
    (retryOn : List Nat) (retries base maxD : Nat) (jitter : Bool) (rand : Nat → Rat)
    (p : Nat × Rat)
    (hp : p ∈ (fetchWithRetry o retryOn retries base maxD jitter rand).2) :
    (o p.1 = .netThrow ∧ p.1 < retries ∧
      p.2 = backoff p.1 base maxD jitter (rand p.1)) ∨
    (∃ st h, o p.1 = .response st h ∧ st ∈ retryOn ∧
      ((∃ v, h = .numeric v ∧ p.2 = ratMin (v * 1000) ((maxD : Nat) : Rat)) ∨
       (((∃ dd, h = .httpDate dd) ∨ h = .garbage) ∧
         p.2 = ratMin ((base : Nat) : Rat) ((maxD : Nat) : Rat)) ∨
       (h = .absent ∧ p.1 < retries ∧
         p.2 = backoff p.1 base maxD jitter (rand p.1)))) :=
  fetchRetryAux_sleeps o retryOn retries base maxD jitter rand retries 1 .nothing p hp

/-- C3 counterexample: the first attempt receives a 429 whose retry hint is
an HTTP-date denoting the current instant.  The claim (and spec) demand a
sleep of the clamped date difference, 0 ms; the code does not parse HTTP-dates
(`Number(ra)` is NaN), falls back to `baseDelayMs` and sleeps 200 ms. -/
theorem fetchWithRetry_http_date_cx :
    (fetchWithRetry dateHintOracle [429, 500, 502, 503, 504] 3 200 4000 false
        (fun _ => 0)).2 = [(1, (200 : Rat))] ∧
    specRetrySleep (.httpDate 0) 1 3 200 4000 false 0 = some 0 ∧
    (200 : Rat) ≠ 0 := by
  refine ⟨by with_unfolding_all decide, by with_unfolding_all decide, by norm_num⟩

/-- Witness for `fetchWithRetry_sleep_characterization`: the unparseable-hint
oracle sleeps 200 ms at attempt 1. -/
theorem fetchWithRetry_sleep_characterization_witness :
    (garbageHintOracle 1 = .netThrow ∧ 1 < 3 ∧
      (200 : Rat) = backoff 1 200 4000 false 0) ∨
    (∃ st h, garbageHintOracle 1 = .response st h ∧ st ∈ [429, 500, 502, 503, 504] ∧
      ((∃ v, h = .numeric v ∧ (200 : Rat) = ratMin (v * 1000) ((4000 : Nat) : Rat)) ∨
       (((∃ dd, h = .httpDate dd) ∨ h = .garbage) ∧
         (200 : Rat) = ratMin ((200 : Nat) : Rat) ((4000 : Nat) : Rat)) ∨
       (h = .absent ∧ 1 < 3 ∧ (200 : Rat) = backoff 1 200 4000 false 0))) :=
  fetchWithRetry_sleep_characterization garbageHintOracle [429, 500, 502, 503, 504]
    3 200 4000 false (fun _ => 0) (1, (200 : Rat)) (by with_unfolding_all decide)

/-- Helper: the state coming out of `postAuth` is always one recorded network
call on top of the input state. -/
theorem postAuth_state (o : Nat → Resp) (tag : Call) (s : RunState) :
    (postAuth o tag s).2 = netCall s tag := by
  unfold postAuth
  cases ho : o s.k <;> dsimp only <;> first | rfl | (split <;> rfl)

/-- Helper: `ensureAccountId` only ever adds the authenticate call to the
trace and never touches the cache or the TTL. -/
theorem ensureAccountId_state (o : Nat → Resp) (s : RunState)
    (r : Except ClientErr String) (s1 : RunState)
    (h : ensureAccountId o s = (r, s1)) :
    (s1.trace = s.trace ∨ s1.trace = s.trace ++ [Call.authenticate]) ∧
    s1.client.cache = s.client.cache ∧
    s1.client.sessionTtlMs = s.client.sessionTtlMs := by
  unfold ensureAccountId at h
  split at h
  · cases h
    exact ⟨Or.inl rfl, rfl, rfl⟩
  · split at h
    · cases h
      exact ⟨Or.inl rfl, rfl, rfl⟩
    · split at h
      · cases h
        exact ⟨Or.inl rfl, rfl, rfl⟩
      · split at h
        · rename_i a sx heq
          cases h
          have h2 := congrArg Prod.snd heq
          rw [show obtainAccountId o s = postAuth o .authenticate s from rfl,
            postAuth_state] at h2
          dsimp at h2
          rw [← h2]
          exact ⟨Or.inr rfl, rfl, rfl⟩
        · rename_i e sx heq
          cases h
          have h2 := congrArg Prod.snd heq
          rw [show obtainAccountId o s = postAuth o .authenticate s from rfl,
            postAuth_state] at h2
          dsimp at h2
          rw [← h2]
          exact ⟨Or.inr rfl, rfl, rfl⟩

/-- Helper: a cacheSet membership survives dropping a trailing non-cacheSet
event. -/
theorem cacheSet_mem_drop (tr : List Call) (c : Call) (tok : String) (ttl : Int)
    (hne : ∀ t2 l2, c ≠ Call.cacheSet t2 l2)
    (hm : Call.cacheSet tok ttl ∈ tr ++ [c]) : Call.cacheSet tok ttl ∈ tr := by
  rcases List.mem_append.mp hm with hm2 | hm2
  · exact hm2
  · exact absurd (List.mem_singleton.mp hm2).symm (hne tok ttl)

/-- Helper: every token `buildFreshSession` returns or stores (in the cache
or as a cacheSet trace event) is a well-formed, non-sentinel UUID. -/
theorem buildFreshSession_tokens (o : Nat → Resp) (now : Int) (s : RunState)
    (r : Except ClientErr String) (s2 : RunState)
    (h : buildFreshSession o now s = (r, s2)) :
    (∀ tok, r = .ok tok → isValidUUID tok = true ∧ tok ≠ DEFAULT_UUID) ∧
    (∀ tok ttl, Call.cacheSet tok ttl ∈ s2.trace →
      Call.cacheSet tok ttl ∈ s.trace ∨ (isValidUUID tok = true ∧ tok ≠ DEFAULT_UUID)) ∧
    (s2.client.cache = s.client.cache ∨
      ∃ tok, s2.client.cache.id = some tok ∧ isValidUUID tok = true ∧ tok ≠ DEFAULT_UUID) := by
  have hmemA : ∀ (sx : RunState),
      (sx.trace = s.trace ∨ sx.trace = s.trace ++ [Call.authenticate]) →
      ∀ tok ttl, Call.cacheSet tok ttl ∈ sx.trace → Call.cacheSet tok ttl ∈ s.trace := by
    intro sx hx tok ttl hmem
    rcases hx with hx | hx <;> rw [hx] at hmem
    · exact hmem
    · exact cacheSet_mem_drop _ _ _ _ (fun _ _ => Call.noConfusion) hmem
  unfold buildFreshSession at h
  split at h
  · rename_i e s1 heq
    cases h
    obtain ⟨htr, hc, _⟩ := ensureAccountId_state o s _ _ heq
    exact ⟨fun tok htok => Except.noConfusion htok,
      fun tok ttl hmem => Or.inl (hmemA _ htr tok ttl hmem), Or.inl hc⟩
  · rename_i aid s1 heq
    obtain ⟨htr, hc, httl⟩ := ensureAccountId_state o s _ _ heq
    split at h
    · cases h
      exact ⟨fun tok htok => Except.noConfusion htok,
        fun tok ttl hmem => Or.inl (hmemA _ htr tok ttl hmem), Or.inl hc⟩
    · rename_i haidv
      split at h
      · cases h
        exact ⟨fun tok htok => Except.noConfusion htok,
          fun tok ttl hmem => Or.inl (hmemA _ htr tok ttl hmem), Or.inl hc⟩
      · rename_i haidd
        split at h
        · rename_i e s2x heq2
          cases h
          have h2 := congrArg Prod.snd heq2
          rw [show obtainSessionId o s1 = postAuth o .loginById s1 from rfl,
            postAuth_state] at h2
          dsimp at h2
          rw [← h2]
          refine ⟨fun tok htok => Except.noConfusion htok, ?_, Or.inl hc⟩
          intro tok ttl hmem
          have hmem2 : Call.cacheSet tok ttl ∈ s1.trace :=
            cacheSet_mem_drop _ _ _ _ (fun _ _ => Call.noConfusion) hmem
          exact Or.inl (hmemA _ htr tok ttl hmem2)
        · rename_i sid s2x heq2
          have h2 := congrArg Prod.snd heq2
          rw [show obtainSessionId o s1 = postAuth o .loginById s1 from rfl,
            postAuth_state] at h2
          dsimp at h2
          split at h
          · cases h
            rw [← h2]
            refine ⟨fun tok htok => Except.noConfusion htok, ?_, Or.inl hc⟩
            intro tok ttl hmem
            have hmem2 : Call.cacheSet tok ttl ∈ s1.trace :=
              cacheSet_mem_drop _ _ _ _ (fun _ _ => Call.noConfusion) hmem
            exact Or.inl (hmemA _ htr tok ttl hmem2)
          · rename_i hsidv
            split at h
            · cases h
              rw [← h2]
              refine ⟨fun tok htok => Except.noConfusion htok, ?_, Or.inl hc⟩
              intro tok ttl hmem
              have hmem2 : Call.cacheSet tok ttl ∈ s1.trace :=
                cacheSet_mem_drop _ _ _ _ (fun _ _ => Call.noConfusion) hmem
              exact Or.inl (hmemA _ htr tok ttl hmem2)
            · rename_i hsidd
              cases h
              have hsidv2 : isValidUUID sid = true := by
                by_contra hx
                exact hsidv hx
              refine ⟨?_, ?_, ?_⟩
              · intro tok htok
                cases htok
                exact ⟨hsidv2, hsidd⟩
              · intro tok ttl hmem
                dsimp [logEvent] at hmem
                rcases List.mem_append.mp hmem with hmem2 | hmem2
                · have hmem3 : Call.cacheSet tok ttl ∈ s1.trace := by
                    rw [← h2] at hmem2
                    exact cacheSet_mem_drop _ _ _ _ (fun _ _ => Call.noConfusion) hmem2
                  exact Or.inl (hmemA _ htr tok ttl hmem3)
                · have heqc := List.mem_singleton.mp hmem2
                  injection heqc with htok httl2
                  subst htok
                  exact Or.inr ⟨hsidv2, hsidd⟩
              · right
                exact ⟨sid, rfl, hsidv2, hsidd⟩

/-- C10: every token `ensureSession` returns — from the cache fast path or
freshly obtained — is a well-formed, non-sentinel UUID, every token it stores
into the session cache (as witnessed both by the cacheSet trace events it
adds and by the resulting cache contents) is a well-formed, non-sentinel
UUID, and the client never hands a caller or the cache a sentinel or
malformed session token. -/
theorem ensureSession_token_validity (o : Nat → Resp) (now : Int) (s : RunState)
    (r : Except ClientErr String) (s2 : RunState)
    (h : ensureSession o now s = (r, s2)) :
    (∀ tok, r = .ok tok → isValidUUID tok = true ∧ tok ≠ DEFAULT_UUID) ∧
    (∀ tok ttl, Call.cacheSet tok ttl ∈ s2.trace →
      Call.cacheSet tok ttl ∈ s.trace ∨ (isValidUUID tok = true ∧ tok ≠ DEFAULT_UUID)) ∧
    (s2.client.cache = s.client.cache ∨
      ∃ tok, s2.client.cache.id = some tok ∧ isValidUUID tok = true ∧ tok ≠ DEFAULT_UUID) := by
  unfold ensureSession at h
  split at h
  · rename_i cached hget
    split at h
    · rename_i hcond
      cases h
      exact ⟨fun tok htok => by cases htok; exact ⟨hcond.2.1, hcond.2.2⟩,
        fun tok ttl hmem => Or.inl hmem, Or.inl rfl⟩
    · exact buildFreshSession_tokens o now s r s2 h
  · exact buildFreshSession_tokens o now s r s2 h

/-- Witness for `ensureSession_token_validity`: the demo run builds a session
and returns the concrete session id, which is checked valid and
non-sentinel. -/
theorem ensureSession_token_validity_witness :
    isValidUUID uuidS = true ∧ uuidS ≠ DEFAULT_UUID :=
  (ensureSession_token_validity demoOracle 0 demoS0
      (ensureSession demoOracle 0 demoS0).1 (ensureSession demoOracle 0 demoS0).2
      rfl).1 uuidS rfl

/-- Helper: a token coming out of the in-memory cache is never the empty
string (the truthiness test in `get` filters it). -/
theorem memoryCacheGet_ne_empty (st : CacheState) (now : Int) (t : String)
    (h : MemorySessionCache.get st now = some t) : t ≠ "" := by
  rcases st with ⟨id0, e0⟩
  cases id0 with
  | none => simp [MemorySessionCache.get] at h
  | some s0 =>
    simp only [MemorySessionCache.get] at h
    split_ifs at h with hc
    cases h
    exact hc.1

/-- C5: when the cache returns a well-formed, non-sentinel token,
`ensureSession` returns it at once with the run state untouched — no network
call, no oracle consumption, no trace event; consequently (second conjunct,
evaluated on the concrete demo scenario at a fixed instant within the TTL
window) two sequential `getGlucoseReadings` calls perform exactly one
account-authentication call and one session-login call but two readings
requests. -/
theorem ensureSession_cache_fast_path (o : Nat → Resp) (now : Int) (s : RunState)
    (tok : String)
    (hget : MemorySessionCache.get s.client.cache now = some tok)
    (hvalid : isValidUUID tok = true) (hsent : tok ≠ DEFAULT_UUID) :
    ensureSession o now s = (.ok tok, s) ∧
    countAuthenticate (getGlucoseReadings demoOracle 0 10 1
        (getGlucoseReadings demoOracle 0 10 1 demoS0).2).2.trace = 1 ∧
    countLogin (getGlucoseReadings demoOracle 0 10 1
        (getGlucoseReadings demoOracle 0 10 1 demoS0).2).2.trace = 1 ∧
    countReadings (getGlucoseReadings demoOracle 0 10 1
        (getGlucoseReadings demoOracle 0 10 1 demoS0).2).2.trace = 2 := by
  have hne := memoryCacheGet_ne_empty s.client.cache now tok hget
  refine ⟨?_, by decide, by decide, by decide⟩
  simp only [ensureSession, hget]
  rw [if_pos ⟨hne, hvalid, hsent⟩]

/-- Witness for `ensureSession_cache_fast_path`: a state whose cache already
holds a fresh valid token returns it unchanged. -/
theorem ensureSession_cache_fast_path_witness :
    ensureSession demoOracle 0
        { client :=
            { username := some "user", accountId := none, password := "pw",
              sessionTtlMs := 480000,
              cache := { id := some uuidS, expiresAt := 480000 } },
          k := 0, trace := [] } =
      (.ok uuidS,
        { client :=
            { username := some "user", accountId := none, password := "pw",
              sessionTtlMs := 480000,
              cache := { id := some uuidS, expiresAt := 480000 } },
          k := 0, trace := [] }) :=
  (ensureSession_cache_fast_path demoOracle 0
      { client :=
          { username := some "user", accountId := none, password := "pw",
            sessionTtlMs := 480000,
            cache := { id := some uuidS, expiresAt := 480000 } },
        k := 0, trace := [] } uuidS (by decide) (by decide) (by decide)).1

/-- C6: in any flow where the cache yields nothing usable (so a fresh session
is built), an authentication endpoint answering with the all-zero sentinel
UUID makes `ensureSession` fail with the corresponding `default`-identifier
`ArgumentError`, with no further network call in that flow and nothing stored
in the cache.  First conjunct: the account-authentication endpoint returns
the sentinel — the session-login call is never issued and the only new event
is the authenticate call.  Second conjunct: the session-login endpoint
returns the sentinel — the only new event is the login call and the cache is
left untouched. -/
theorem ensureSession_sentinel_rejection (o : Nat → Resp) (now : Int) (s : RunState)
    (hfresh : MemorySessionCache.get s.client.cache now = none ∨
      ∃ c, MemorySessionCache.get s.client.cache now = some c ∧
        ¬ (c ≠ "" ∧ isValidUUID c = true ∧ c ≠ DEFAULT_UUID)) :
    (truthyStr s.client.accountId = false → truthyStr s.client.username = true →
      s.client.password ≠ "" → o s.k = .body DEFAULT_UUID →
      ensureSession o now s =
        (.error (.dexcom (.argument .ACCOUNT_ID_DEFAULT)),
         { netCall s .authenticate with
           client := { s.client with accountId := some DEFAULT_UUID } })) ∧
    (∀ a, s.client.accountId = some a → a ≠ "" → isValidUUID a = true →
      a ≠ DEFAULT_UUID → o s.k = .body DEFAULT_UUID →
      ensureSession o now s =
        (.error (.dexcom (.argument .SESSION_ID_DEFAULT)), netCall s .loginById)) := by
  have hred : ensureSession o now s = buildFreshSession o now s := by
    rcases hfresh with hnone | ⟨c, hcg, hnc⟩
    · simp [ensureSession, hnone]
    · simp only [ensureSession, hcg]
      rw [if_neg hnc]
  constructor
  · intro hA hU hP hod
    rw [hred]
    have hz : zAuthStringOk DEFAULT_UUID = true := by decide
    have hv : isValidUUID DEFAULT_UUID = true := by decide
    simp [buildFreshSession, ensureAccountId, obtainAccountId, postAuth, netCall, hod,
      hA, hU, hP, hz, hv]
  · intro a ha hane havalid hadef hod
    rw [hred]
    have hta : truthyStr (some a) = true := by
      simpa [truthyStr] using hane
    have hz : zAuthStringOk DEFAULT_UUID = true := by decide
    have hv : isValidUUID DEFAULT_UUID = true := by decide
    simp [buildFreshSession, ensureAccountId, obtainSessionId, postAuth, netCall, hod,
      ha, hta, havalid, hadef, hz, hv]

/-- Witness for `ensureSession_sentinel_rejection`: the demo client with an
empty cache against an oracle that always answers with the sentinel UUID. -/
theorem ensureSession_sentinel_rejection_witness :
    ensureSession sentinelOracle 0 demoS0 =
      (.error (.dexcom (.argument .ACCOUNT_ID_DEFAULT)),
       { netCall demoS0 .authenticate with
         client := { demoS0.client with accountId := some DEFAULT_UUID } }) :=
  (ensureSession_sentinel_rejection sentinelOracle 0 demoS0 (Or.inl (by decide))).1
    (by decide) (by decide) (by decide) (by decide)

/-- C1: with valid bounds, when the first fetch sequence (session
establishment plus readings request) fails with a session-category error,
`getGlucoseReadings` clears the session cache and re-runs the entire fetch
sequence exactly once from the cleared state, returning that second run's
result verbatim — so a second session failure propagates unmodified; when the
first failure is not a session error, it propagates as-is, with no retry and
no cache clear. -/
theorem getGlucoseReadings_session_retry (o : Nat → Resp) (now : Int)
    (minutes maxCount : Rat) (s : RunState) (e : ClientErr) (s1 : RunState)
    (hv : validateMinutesAndCount minutes maxCount defaultBounds = none)
    (hfail : fetchRawReadings o now minutes maxCount s = (.error e, s1)) :
    (isSessionError e = true →
      getGlucoseReadings o now minutes maxCount s =
        fetchRawReadings o now minutes maxCount (clearSessionCache s1)) ∧
    (isSessionError e = false →
      getGlucoseReadings o now minutes maxCount s = (.error e, s1)) := by
  constructor
  · intro hsess
    simp [getGlucoseReadings, hv, hfail, hsess]
  · intro hnot
    simp [getGlucoseReadings, hv, hfail, hnot]

/-- Witness for `getGlucoseReadings_session_retry`: the self-healing
scenario — the first readings call is rejected with `SessionIdNotFound` and
the overall call equals the rerun from the cleared state. -/
theorem getGlucoseReadings_session_retry_witness :
    getGlucoseReadings retryOracle 0 10 1 demoS0 =
      fetchRawReadings retryOracle 0 10 1
        (clearSessionCache (fetchRawReadings retryOracle 0 10 1 demoS0).2) :=
  (getGlucoseReadings_session_retry retryOracle 0 10 1 demoS0
      (.dexcom (.session .SESSION_NOT_FOUND))
      (fetchRawReadings retryOracle 0 10 1 demoS0).2 (by decide) rfl).1 rfl
